import Mathlib

/-!
Shallow embedding of the `Py_Instrument_Driver_Package` oscilloscope driver
(`src/instrument_module/Tek_DPO4000.py` and `src/instrument_module/visa_utils.py`).

The instrument transport (`self.device`, a PyVISA resource) is modelled as a
deterministic oracle: a `Behavior` gives, for each successive transport call
(indexed by a call counter) and the operation issued, either a raised exception
or a returned payload string.  Driver methods become computations in a state
monad `M` that threads the call counter and an event trace (transport
operations and sleeps) and returns `Except Unit α` (`.error` = a propagating
Python exception).  The unbounded Python `while` loops are given explicit fuel;
running out of fuel yields `none` ("still looping"), never a fabricated result.
-/

namespace PyDriver

/-! ## Python numeric-string parsing (`int(s)`, `float(s)` on driver inputs) -/

/-- Leading sign of a Python numeric literal: the sign multiplier and the rest. -/
def splitSign : List Char → Int × List Char
  | [] => (1, [])
  | c :: cs =>
    if c = '+' then (1, cs)
    else if c = '-' then (-1, cs)
    else (1, c :: cs)

/-- Value of a digit string. -/
def natOfDigits (l : List Char) : Nat :=
  l.foldl (fun a c => a * 10 + (c.toNat - 48)) 0

/-- Nonempty and all decimal digits. -/
def isDigits (l : List Char) : Bool :=
  decide (l ≠ []) && l.all Char.isDigit

/-- Python `str.strip()` of surrounding whitespace, on the character list. -/
def stripWS (l : List Char) : List Char :=
  ((l.dropWhile Char.isWhitespace).reverse.dropWhile Char.isWhitespace).reverse

/-- Python `int(s)`: strip whitespace, optional sign, decimal digits;
`none` models a raised `ValueError`. -/
def pyInt (s : String) : Option Int :=
  let p := splitSign (stripWS s.toList)
  if isDigits p.2 then some (p.1 * natOfDigits p.2) else none

/-- The mantissa part `digits[.digits]` of a float literal: the digits read
as one integer, and the number of fractional digits. -/
def mantParts (m : List Char) : Option (Nat × Nat) :=
  let ip := m.takeWhile (fun c => c != '.')
  match m.dropWhile (fun c => c != '.') with
  | [] => if isDigits ip then some (natOfDigits ip, 0) else none
  | _ :: fp =>
    if (decide (ip ≠ []) || decide (fp ≠ [])) && ip.all Char.isDigit
        && fp.all Char.isDigit then
      some (natOfDigits (ip ++ fp), fp.length)
    else none

/-- Value of the exponent part (`""` or `e[sign]digits`, the `e` removed). -/
def expVal : List Char → Option Int
  | [] => some 0
  | _ :: es =>
    let p := splitSign es
    if isDigits p.2 then some (p.1 * natOfDigits p.2) else none

/-- Power `10 ^ n`, by structural recursion (kernel-reducible). -/
def npow10 : Nat → Nat
  | 0 => 1
  | n + 1 => 10 * npow10 n

/-- Python `float(s)` on decimal/scientific literals, as an exact rational
(no claim here inspects binary rounding); `none` models a raised
`ValueError`.  The value is `sign * mantissaDigits * 10 ^ (exp - fracLen)`. -/
def pyFloat? (s : String) : Option Rat :=
  let p := splitSign (stripWS s.toList)
  let mant := p.2.takeWhile (fun c => c != 'e' && c != 'E')
  match mantParts mant, expVal (p.2.dropWhile (fun c => c != 'e' && c != 'E')) with
  | some mp, some e =>
    let e2 : Int := e - (mp.2 : Int)
    some (if 0 ≤ e2 then mkRat (p.1 * (mp.1 : Int) * (npow10 e2.toNat : Int)) 1
          else mkRat (p.1 * (mp.1 : Int)) (npow10 (-e2).toNat))
  | _, _ => none

/-- Decidable equality for `Except`, so concrete runs can be settled by
`decide`. -/
instance {ε α : Type} [DecidableEq ε] [DecidableEq α] :
    DecidableEq (Except ε α)
  | .error x, .error y => decidable_of_iff (x = y) (by simp)
  | .error _, .ok _ => .isFalse (by simp)
  | .ok _, .error _ => .isFalse (by simp)
  | .ok x, .ok y => decidable_of_iff (x = y) (by simp)

/-! ## Transport oracle and effect monad -/

/-- One transport operation of the PyVISA resource capability used by the
driver: `device.write(cmd)`, `device.query(cmd)`, `device.read_raw()`. -/
inductive TOp : Type
  | write (cmd : String)
  | query (cmd : String)
  | readRaw
deriving DecidableEq, Repr

/-- Outcome of one transport call: raise an exception, or return a payload
(the response string of a query / the bytes of a raw read; ignored for a
write). -/
inductive Outcome : Type
  | raise
  | ret (s : String)
deriving DecidableEq, Repr

/-- True (`o.succeeds`) iff the call does not raise. -/
def Outcome.succeeds : Outcome → Bool
  | .raise => false
  | .ret _ => true

/-- A deterministic transport: the outcome of the `i`-th transport call when
that call is operation `o`. -/
def Behavior : Type := Nat → TOp → Outcome

/-- Observable events of a driver run: transport calls and `time.sleep`s
(durations in seconds, exact). -/
inductive Ev : Type
  | op (o : TOp)
  | sleep (secs : Rat)
deriving DecidableEq, Repr

/-- Run state: the index of the next transport call and the event trace so
far. -/
structure TState : Type where
  idx : Nat
  trace : List Ev
deriving DecidableEq, Repr

/-- The initial run state. -/
def st0 : TState := ⟨0, []⟩

/-- Driver computations: state-threading with Python-style exceptions.  The
state survives a raise (the events already happened), so an enclosing
`try/except` resumes from it. -/
def M (α : Type) : Type := TState → TState × Except Unit α

/-- Monadic return. -/
def M.pure {α : Type} (a : α) : M α := fun s => (s, .ok a)

/-- Monadic bind: an exception short-circuits, keeping the state. -/
def M.bind {α β : Type} (x : M α) (f : α → M β) : M β := fun s =>
  match x s with
  | (s1, .error e) => (s1, .error e)
  | (s1, .ok a) => f a s1

/-- Raise a Python exception. -/
def M.throw {α : Type} : M α := fun s => (s, .error ())

/-- Python `try: body except: handler` — the handler runs from the state at
the raise. -/
def M.tryCatch {α : Type} (body handler : M α) : M α := fun s =>
  match body s with
  | (s1, .error _) => handler s1
  | (s1, .ok a) => (s1, .ok a)

/-- Issue the `i`-th transport call: record the event, consult the oracle. -/
def callT (beh : Behavior) (o : TOp) : M String := fun s =>
  let s1 : TState := ⟨s.idx + 1, s.trace ++ [Ev.op o]⟩
  match beh s.idx o with
  | .raise => (s1, .error ())
  | .ret r => (s1, .ok r)

/-- Transport `self.device.write(cmd)`. -/
def device_write (beh : Behavior) (cmd : String) : M Unit :=
  M.bind (callT beh (.write cmd)) fun _ => M.pure ()

/-- Transport `self.device.query(cmd)`. -/
def device_query (beh : Behavior) (cmd : String) : M String :=
  callT beh (.query cmd)

/-- Transport `self.device.read_raw()`; the returned bytes are modelled as a string. -/
def device_read_raw (beh : Behavior) : M String :=
  callT beh .readRaw

/-- Python `time.sleep(d)`: records a sleep event. -/
def sleepM (d : Rat) : M Unit := fun s =>
  (⟨s.idx, s.trace ++ [Ev.sleep d]⟩, .ok ())

/-- Python `int(s)` as an effect: raises `ValueError` on a non-integer string. -/
def pyIntM (s : String) : M Int := fun st =>
  match pyInt s with
  | some v => (st, .ok v)
  | none => (st, .error ())

/-- Python `float(s)` as an effect: raises `ValueError` on a non-numeric string. -/
def pyFloatM (s : String) : M Rat := fun st =>
  match pyFloat? s with
  | some v => (st, .ok v)
  | none => (st, .error ())

/-- Python `float(x)` for `x` an `Optional[float]`: `float(None)` raises
`TypeError`, `float` of a float is itself. -/
def pyFloatOfOpt (x : Option Rat) : M Rat := fun st =>
  match x with
  | some v => (st, .ok v)
  | none => (st, .error ())

/-! ## DPO4000 methods (`Tek_DPO4000.py`) -/

namespace DPO4000

/-- Method `DPO4000.wai`: write `*WAI`. -/
def wai (beh : Behavior) : M Unit :=
  device_write beh "*WAI"

/-- Method `DPO4000.data_source(chan)`: write `DATA:SOU CH{chan}`. -/
def data_source (beh : Behavior) (chan : String) : M Unit :=
  device_write beh ("DATA:SOU CH" ++ chan)

/-- Method `DPO4000.data_width(width)`: write `DATA:WIDTH {width}`. -/
def data_width (beh : Behavior) (width : String) : M Unit :=
  device_write beh ("DATA:WIDTH " ++ width)

/-- Method `DPO4000.data_encoding(enc)`: write `DATA:ENC {enc}`. -/
def data_encoding (beh : Behavior) (enc : String) : M Unit :=
  device_write beh ("DATA:ENC " ++ enc)

/-- Method `DPO4000.wfmpre_ymult`: `try: self.wai(); return float(query("WFMPRE:YMULT?"))
except Exception: return None`. -/
def wfmpre_ymult (beh : Behavior) : M (Option Rat) :=
  M.tryCatch
    (M.bind (wai beh) fun _ =>
     M.bind (device_query beh "WFMPRE:YMULT?") fun resp =>
     M.bind (pyFloatM resp) fun v =>
     M.pure (some v))
    (M.pure none)

/-- Method `DPO4000.wfmpre_yzero`: `try: return float(query("WFMPRE:YZERO?"))
except Exception: return None`. -/
def wfmpre_yzero (beh : Behavior) : M (Option Rat) :=
  M.tryCatch
    (M.bind (device_query beh "WFMPRE:YZERO?") fun resp =>
     M.bind (pyFloatM resp) fun v =>
     M.pure (some v))
    (M.pure none)

/-- Method `DPO4000.wfmpre_yoff`: `try: return float(query("WFMPRE:YOFF?"))
except Exception: return None`. -/
def wfmpre_yoff (beh : Behavior) : M (Option Rat) :=
  M.tryCatch
    (M.bind (device_query beh "WFMPRE:YOFF?") fun resp =>
     M.bind (pyFloatM resp) fun v =>
     M.pure (some v))
    (M.pure none)

/-- Method `DPO4000.wfmpre_xincr`: `try: return float(query("WFMPRE:XINCR?"))
except Exception: return None`. -/
def wfmpre_xincr (beh : Behavior) : M (Option Rat) :=
  M.tryCatch
    (M.bind (device_query beh "WFMPRE:XINCR?") fun resp =>
     M.bind (pyFloatM resp) fun v =>
     M.pure (some v))
    (M.pure none)

/-- One iteration of the `while True` loop of `DPO4000.wait_until_ready`:
`try: if int(query("*OPC?")): break  except Exception: sleep(0.1)`.
Returns `true` iff the loop breaks.  Note the sleep happens only on the
exception path; a response parsing to `0` falls through with no sleep. -/
def wur_iter (beh : Behavior) : M Bool :=
  M.tryCatch
    (M.bind (device_query beh "*OPC?") fun resp =>
     M.bind (pyIntM resp) fun v =>
     M.pure (decide (v ≠ 0)))
    (M.bind (sleepM (1 / 10)) fun _ => M.pure false)

/-- Method `DPO4000.wait_until_ready`, fuel-bounded: `some ()` = the loop broke
(the method returned); `none` = still looping after `fuel` iterations. -/
def wait_until_ready (beh : Behavior) : Nat → M (Option Unit)
  | 0 => M.pure none
  | fuel + 1 =>
    M.bind (wur_iter beh) fun b =>
    if b then M.pure (some ()) else wait_until_ready beh fuel

/-- The value returned by `DPO4000.acquire_waveform`:
`(ymult, yzero, yoff, xincr, data)`.  `ymult` is a bare float (it went
through `float(...)`); the other three preamble values are `Optional`. -/
structure AcqResult : Type where
  ymult : Rat
  yzero : Option Rat
  yoff : Option Rat
  xincr : Option Rat
  data : String
deriving DecidableEq, Repr

/-- The body of the `try:` block of `DPO4000.acquire_waveform` — one full
acquisition attempt, from `data_source` to `read_raw`. -/
def acq_attempt (beh : Behavior) (chan width enc : String) : M AcqResult :=
  M.bind (data_source beh chan) fun _ =>
  M.bind (data_width beh width) fun _ =>
  M.bind (data_encoding beh enc) fun _ =>
  M.bind (wfmpre_ymult beh) fun ymOpt =>
  M.bind (pyFloatOfOpt ymOpt) fun ymult =>
  M.bind (wfmpre_yzero beh) fun yzero =>
  M.bind (wfmpre_yoff beh) fun yoff =>
  M.bind (wfmpre_xincr beh) fun xincr =>
  M.bind (device_write beh "CURVE?") fun _ =>
  M.bind (device_read_raw beh) fun data =>
  M.pure ⟨ymult, yzero, yoff, xincr, data⟩

/-- Method `DPO4000.acquire_waveform`, fuel-bounded: each failed attempt
(`except: good = 0`) immediately retries the whole sequence; `none` =
still looping after `fuel` attempts. -/
def acquire_waveform (beh : Behavior) (chan width enc : String) :
    Nat → M (Option AcqResult)
  | 0 => M.pure none
  | fuel + 1 => fun s =>
    match acq_attempt beh chan width enc s with
    | (s1, .ok r) => (s1, .ok (some r))
    | (s1, .error _) => acquire_waveform beh chan width enc fuel s1

end DPO4000

/-! ## Trace observers -/

/-- The transport operations of a trace, in order (sleeps dropped). -/
def opsOf (t : List Ev) : List TOp :=
  t.filterMap fun e =>
    match e with
    | .op o => some o
    | .sleep _ => none

/-- How many sleeps a trace contains. -/
def sleepCount (t : List Ev) : Nat :=
  (t.filter fun e =>
    match e with
    | .op _ => false
    | .sleep _ => true).length

/-- A computation that never sleeps: it adds no sleep events to the trace. -/
def NoSleep {α : Type} (m : M α) : Prop :=
  ∀ s, sleepCount (m s).1.trace = sleepCount s.trace

namespace DPO4000

/-- The event trace of one full (uninterrupted) acquisition attempt — note
the `*WAI` written by `wfmpre_ymult` between `DATA:ENC` and the `YMULT?`
query. -/
def attemptEvs (chan width enc : String) : List Ev :=
  [Ev.op (.write ("DATA:SOU CH" ++ chan)), Ev.op (.write ("DATA:WIDTH " ++ width)),
   Ev.op (.write ("DATA:ENC " ++ enc)), Ev.op (.write "*WAI"),
   Ev.op (.query "WFMPRE:YMULT?"), Ev.op (.query "WFMPRE:YZERO?"),
   Ev.op (.query "WFMPRE:YOFF?"), Ev.op (.query "WFMPRE:XINCR?"),
   Ev.op (.write "CURVE?"), Ev.op .readRaw]

/-- The command sequence the spec claims `acquire_waveform` issues before
the raw block read (stated from the words of the spec, for comparison with
the actual sequence of the source). -/
def claimedCmdSeq (chan width enc : String) : List TOp :=
  [.write ("DATA:SOU CH" ++ chan), .write ("DATA:WIDTH " ++ width),
   .write ("DATA:ENC " ++ enc), .query "WFMPRE:YMULT?", .query "WFMPRE:YZERO?",
   .query "WFMPRE:YOFF?", .query "WFMPRE:XINCR?", .write "CURVE?"]

/-- A transport on which every call succeeds: writes acknowledged, every
query answers `"1.0"`, the raw read returns `"DATA"`. -/
def behGood : Behavior := fun _ o =>
  match o with
  | .write _ => .ret ""
  | .query _ => .ret "1.0"
  | .readRaw => .ret "DATA"

/-- A transport that raises exactly on its `k`-th call and otherwise
behaves like `behGood`. -/
def behFailAt (k : Nat) : Behavior := fun i o =>
  if i = k then .raise
  else match o with
    | .write _ => .ret ""
    | .query _ => .ret "1.0"
    | .readRaw => .ret "DATA"

/-- A transport on which every call raises. -/
def behRaise : Behavior := fun _ _ => .raise

/-- A transport whose first `*OPC?` answer is `"0"` and whose later calls
answer `"1"`. -/
def behZeroOne : Behavior := fun i _ =>
  if i = 0 then .ret "0" else .ret "1"

/-- The C6 scenario transport: writes succeed, the `i`-th call answers
`qs i` if it is a query, and the raw read raises on the first two attempts
(call indices below 20) and returns `d` on the third. -/
def behC6 (qs : Nat → String) (d : String) : Behavior := fun i o =>
  match o with
  | .write _ => .ret ""
  | .query _ => .ret (qs i)
  | .readRaw => if i < 20 then .raise else .ret d

end DPO4000


/-- An `*OPC?` outcome that raises, fails to parse as an integer, or parses
to the falsy `0`. -/
def opcFailsOrFalsy (o : Outcome) : Prop :=
  o = .raise ∨ ∃ r, o = .ret r ∧ (pyInt r = none ∨ pyInt r = some 0)

/-- How many sleeps one `wait_until_ready` iteration adds, as a function of
the `*OPC?` outcome. -/
def wurSleepNum (o : Outcome) : Nat :=
  match o with
  | .raise => 1
  | .ret r =>
    match pyInt r with
    | none => 1
    | some _ => 0

/-! ## Connection bootstrap (`visa_utils.py`, `DPO4000.__init__`) -/

/-- An opened VISA resource handle (opaque to the driver logic). -/
structure Device : Type where
  id : Nat
deriving DecidableEq, Repr

/-- Outcome of `rm.open_resource(addr)`: a handle, a raised `VisaIOError`,
or some other raised exception. -/
inductive OpenOutcome : Type
  | ok (d : Device)
  | visaIOError
  | otherError
deriving DecidableEq, Repr

/-- Whether `open_resource` returned a handle. -/
def OpenOutcome.isOk : OpenOutcome → Bool
  | .ok _ => true
  | .visaIOError => false
  | .otherError => false

/-- The PyVISA resource manager method `open_resource`, as an oracle from VISA
resource strings to outcomes. -/
def OpenResource : Type := String → OpenOutcome

/-- Function `connect_usb_instrument(address)`: `(device, address, "Connected")` on
success, `(None, None, "Not Connected")` on `VisaIOError`; any other
exception propagates (`.error`). -/
def connect_usb_instrument (openR : OpenResource) (address : String) :
    Except Unit (Option Device × Option String × String) :=
  match openR address with
  | .ok d => .ok (some d, some address, "Connected")
  | .visaIOError => .ok (none, none, "Not Connected")
  | .otherError => .error ()

/-- The VISA resource string `connect_ethernet_instrument` builds. -/
def ethernet_resource_str (ip_address : String) (port : Nat)
    (use_socket : Bool) : String :=
  if use_socket then "TCPIP0::" ++ ip_address ++ "::" ++ toString port ++ "::SOCKET"
  else "TCPIP0::" ++ ip_address ++ "::INSTR"

/-- Function `connect_ethernet_instrument(ip_address, port, use_socket)`. -/
def connect_ethernet_instrument (openR : OpenResource) (ip_address : String)
    (port : Nat) (use_socket : Bool) :
    Except Unit (Option Device × Option String × String) :=
  let resource_str := ethernet_resource_str ip_address port use_socket
  match openR resource_str with
  | .ok d => .ok (some d, some resource_str, "Connected")
  | .visaIOError => .ok (none, none, "Not Connected")
  | .otherError => .error ()

/-- The attributes a constructed `DPO4000` carries. -/
structure DPOFields : Type where
  device : Option Device
  address : Option String
  status : String
  connected_with : Option String
  timeout : Nat
deriving DecidableEq, Repr

/-- Constructor `DPO4000.__init__(connection_method, address)`.  `self.device.timeout =
TIMEOUT` raises `AttributeError` when `self.device` is `None` (failed
connection) or was never assigned (`connection_method` neither `"USB"` nor
`"IP"`); then no instance reaches the caller (`.error`). -/
def DPO4000_init (openR : OpenResource) (connection_method address : String) :
    Except Unit DPOFields :=
  if connection_method = "USB" then
    match connect_usb_instrument openR address with
    | .error e => .error e
    | .ok (dev, addr, status) =>
      match dev with
      | none => .error ()
      | some d => .ok ⟨some d, addr, status,
          if status = "Connected" then some "USB" else none, 20000⟩
  else if connection_method = "IP" then
    match connect_ethernet_instrument openR address 5025 false with
    | .error e => .error e
    | .ok (dev, addr, status) =>
      match dev with
      | none => .error ()
      | some d => .ok ⟨some d, addr, status,
          if status = "Connected" then some "Ethernet" else none, 20000⟩
  else .error ()

end PyDriver

/-! ## Helper lemmas -/

namespace PyDriver

open DPO4000

theorem tryFloat_eq (beh : Behavior) (cmd : String) (s : TState) :
    M.tryCatch
      (M.bind (device_query beh cmd) fun resp =>
       M.bind (pyFloatM resp) fun v =>
       M.pure (some v))
      (M.pure none) s =
    (⟨s.idx + 1, s.trace ++ [Ev.op (.query cmd)]⟩,
     .ok (match beh s.idx (.query cmd) with
          | .raise => none
          | .ret r => pyFloat? r)) := by
  cases h : beh s.idx (.query cmd) with
  | raise => simp [M.tryCatch, M.bind, M.pure, device_query, callT, h]
  | ret r =>
    cases hp : pyFloat? r <;>
      simp [M.tryCatch, M.bind, M.pure, device_query, callT, pyFloatM, h, hp]

theorem wfmpre_yzero_eq (beh : Behavior) (s : TState) :
    wfmpre_yzero beh s =
    (⟨s.idx + 1, s.trace ++ [Ev.op (.query "WFMPRE:YZERO?")]⟩,
     .ok (match beh s.idx (.query "WFMPRE:YZERO?") with
          | .raise => none
          | .ret r => pyFloat? r)) :=
  tryFloat_eq beh "WFMPRE:YZERO?" s

theorem wfmpre_yoff_eq (beh : Behavior) (s : TState) :
    wfmpre_yoff beh s =
    (⟨s.idx + 1, s.trace ++ [Ev.op (.query "WFMPRE:YOFF?")]⟩,
     .ok (match beh s.idx (.query "WFMPRE:YOFF?") with
          | .raise => none
          | .ret r => pyFloat? r)) :=
  tryFloat_eq beh "WFMPRE:YOFF?" s

theorem wfmpre_xincr_eq (beh : Behavior) (s : TState) :
    wfmpre_xincr beh s =
    (⟨s.idx + 1, s.trace ++ [Ev.op (.query "WFMPRE:XINCR?")]⟩,
     .ok (match beh s.idx (.query "WFMPRE:XINCR?") with
          | .raise => none
          | .ret r => pyFloat? r)) :=
  tryFloat_eq beh "WFMPRE:XINCR?" s

theorem wfmpre_ymult_eq (beh : Behavior) (s : TState) :
    wfmpre_ymult beh s =
    (match beh s.idx (.write "*WAI") with
     | .raise => (⟨s.idx + 1, s.trace ++ [Ev.op (.write "*WAI")]⟩, .ok none)
     | .ret _ =>
       (⟨s.idx + 2, s.trace ++ [Ev.op (.write "*WAI"), Ev.op (.query "WFMPRE:YMULT?")]⟩,
        .ok (match beh (s.idx + 1) (.query "WFMPRE:YMULT?") with
             | .raise => none
             | .ret r => pyFloat? r))) := by
  cases h3 : beh s.idx (.write "*WAI") with
  | raise => simp [wfmpre_ymult, wai, M.tryCatch, M.bind, M.pure, device_write, callT, h3]
  | ret r3 =>
    cases h4 : beh (s.idx + 1) (.query "WFMPRE:YMULT?") with
    | raise =>
      simp [wfmpre_ymult, wai, M.tryCatch, M.bind, M.pure, device_write, device_query, callT, h3, h4]
    | ret q4 =>
      cases hp : pyFloat? q4 <;>
        simp [wfmpre_ymult, wai, M.tryCatch, M.bind, M.pure, device_write, device_query,
          callT, pyFloatM, h3, h4, hp]

theorem acq_attempt_success (beh : Behavior) (chan width enc : String) (s : TState)
    (r0 r1 r2 r3 q4 q5 q6 q7 r8 d : String) (v4 : Rat)
    (h0 : beh s.idx (.write ("DATA:SOU CH" ++ chan)) = .ret r0)
    (h1 : beh (s.idx + 1) (.write ("DATA:WIDTH " ++ width)) = .ret r1)
    (h2 : beh (s.idx + 2) (.write ("DATA:ENC " ++ enc)) = .ret r2)
    (h3 : beh (s.idx + 3) (.write "*WAI") = .ret r3)
    (h4 : beh (s.idx + 4) (.query "WFMPRE:YMULT?") = .ret q4)
    (p4 : pyFloat? q4 = some v4)
    (h5 : beh (s.idx + 5) (.query "WFMPRE:YZERO?") = .ret q5)
    (h6 : beh (s.idx + 6) (.query "WFMPRE:YOFF?") = .ret q6)
    (h7 : beh (s.idx + 7) (.query "WFMPRE:XINCR?") = .ret q7)
    (h8 : beh (s.idx + 8) (.write "CURVE?") = .ret r8)
    (h9 : beh (s.idx + 9) .readRaw = .ret d) :
    acq_attempt beh chan width enc s =
      (⟨s.idx + 10, s.trace ++ attemptEvs chan width enc⟩,
       .ok ⟨v4, pyFloat? q5, pyFloat? q6, pyFloat? q7, d⟩) := by
  simp [acq_attempt, data_source, data_width, data_encoding, device_write, device_query,
    device_read_raw, M.bind, M.pure, callT, pyFloatOfOpt, wfmpre_ymult_eq, wfmpre_yzero_eq,
    wfmpre_yoff_eq, wfmpre_xincr_eq, attemptEvs, h0, h1, h2, h3, h4, p4, h5, h6, h7, h8, h9]
  try omega

theorem acq_attempt_failRaw (beh : Behavior) (chan width enc : String) (s : TState)
    (r0 r1 r2 r3 q4 q5 q6 q7 r8 : String) (v4 : Rat)
    (h0 : beh s.idx (.write ("DATA:SOU CH" ++ chan)) = .ret r0)
    (h1 : beh (s.idx + 1) (.write ("DATA:WIDTH " ++ width)) = .ret r1)
    (h2 : beh (s.idx + 2) (.write ("DATA:ENC " ++ enc)) = .ret r2)
    (h3 : beh (s.idx + 3) (.write "*WAI") = .ret r3)
    (h4 : beh (s.idx + 4) (.query "WFMPRE:YMULT?") = .ret q4)
    (p4 : pyFloat? q4 = some v4)
    (h5 : beh (s.idx + 5) (.query "WFMPRE:YZERO?") = .ret q5)
    (h6 : beh (s.idx + 6) (.query "WFMPRE:YOFF?") = .ret q6)
    (h7 : beh (s.idx + 7) (.query "WFMPRE:XINCR?") = .ret q7)
    (h8 : beh (s.idx + 8) (.write "CURVE?") = .ret r8)
    (h9 : beh (s.idx + 9) .readRaw = .raise) :
    acq_attempt beh chan width enc s =
      (⟨s.idx + 10, s.trace ++ attemptEvs chan width enc⟩, .error ()) := by
  simp [acq_attempt, data_source, data_width, data_encoding, device_write, device_query,
    device_read_raw, M.bind, M.pure, callT, pyFloatOfOpt, wfmpre_ymult_eq, wfmpre_yzero_eq,
    wfmpre_yoff_eq, wfmpre_xincr_eq, attemptEvs, h0, h1, h2, h3, h4, p4, h5, h6, h7, h8, h9]
  try omega

theorem sleepCount_append (a b : List Ev) :
    sleepCount (a ++ b) = sleepCount a + sleepCount b := by
  simp [sleepCount, List.filter_append]

theorem wur_iter_eq (beh : Behavior) (s : TState) :
    wur_iter beh s =
      (match beh s.idx (.query "*OPC?") with
       | .raise =>
         (⟨s.idx + 1, s.trace ++ [Ev.op (.query "*OPC?"), Ev.sleep (1 / 10)]⟩, .ok false)
       | .ret r =>
         match pyInt r with
         | none =>
           (⟨s.idx + 1, s.trace ++ [Ev.op (.query "*OPC?"), Ev.sleep (1 / 10)]⟩, .ok false)
         | some v =>
           (⟨s.idx + 1, s.trace ++ [Ev.op (.query "*OPC?")]⟩, .ok (decide (v ≠ 0)))) := by
  cases h : beh s.idx (.query "*OPC?") with
  | raise => simp [wur_iter, M.tryCatch, M.bind, M.pure, device_query, callT, sleepM, h]
  | ret r =>
    cases hp : pyInt r <;>
      simp [wur_iter, M.tryCatch, M.bind, M.pure, device_query, callT, sleepM, pyIntM, h, hp]

theorem wur_never (beh : Behavior)
    (h : ∀ i, opcFailsOrFalsy (beh i (.query "*OPC?"))) :
    ∀ (fuel : Nat) (s : TState), (wait_until_ready beh fuel s).2 = .ok none := by
  intro fuel
  induction fuel with
  | zero => intro s; rfl
  | succ n ih =>
    intro s
    rcases h s.idx with hq | ⟨r, hq, hr | hr⟩
    · simp [wait_until_ready, M.bind, M.pure, wur_iter_eq, hq, ih]
    · simp [wait_until_ready, M.bind, M.pure, wur_iter_eq, hq, hr, ih]
    · simp [wait_until_ready, M.bind, M.pure, wur_iter_eq, hq, hr, ih]

theorem acq_never (beh : Behavior) (chan width enc : String)
    (h : ∀ s, ∃ s1, acq_attempt beh chan width enc s = (s1, .error ())) :
    ∀ (fuel : Nat) (s : TState),
      (acquire_waveform beh chan width enc fuel s).2 = .ok none := by
  intro fuel
  induction fuel with
  | zero => intro s; rfl
  | succ n ih =>
    intro s
    obtain ⟨s1, hs⟩ := h s
    simp [acquire_waveform, hs, ih]

theorem acquire_waveform_step_error (beh : Behavior) (chan width enc : String)
    (fuel : Nat) (s s1 : TState)
    (h : acq_attempt beh chan width enc s = (s1, .error ())) :
    acquire_waveform beh chan width enc (fuel + 1) s
      = acquire_waveform beh chan width enc fuel s1 := by
  simp [acquire_waveform, h]

theorem acquire_waveform_step_ok (beh : Behavior) (chan width enc : String)
    (fuel : Nat) (s s1 : TState) (r : AcqResult)
    (h : acq_attempt beh chan width enc s = (s1, .ok r)) :
    acquire_waveform beh chan width enc (fuel + 1) s = (s1, .ok (some r)) := by
  simp [acquire_waveform, h]



theorem noSleep_pure {α : Type} (a : α) : NoSleep (M.pure a) := fun _ => rfl

theorem noSleep_bind {α β : Type} {x : M α} {f : α → M β}
    (hx : NoSleep x) (hf : ∀ a, NoSleep (f a)) : NoSleep (M.bind x f) := by
  intro s
  cases hxs : x s with
  | mk s1 r =>
    have h1 : sleepCount s1.trace = sleepCount s.trace := by
      simpa [hxs] using hx s
    cases r with
    | error e => simp [M.bind, hxs, h1]
    | ok a =>
      simp [M.bind, hxs]
      rw [hf a s1, h1]

theorem noSleep_tryCatch {α : Type} {x y : M α}
    (hx : NoSleep x) (hy : NoSleep y) : NoSleep (M.tryCatch x y) := by
  intro s
  cases hxs : x s with
  | mk s1 r =>
    have h1 : sleepCount s1.trace = sleepCount s.trace := by
      simpa [hxs] using hx s
    cases r with
    | error e =>
      simp [M.tryCatch, hxs]
      rw [hy s1, h1]
    | ok a => simp [M.tryCatch, hxs, h1]

theorem noSleep_callT (beh : Behavior) (o : TOp) : NoSleep (callT beh o) := by
  intro s
  cases h : beh s.idx o <;> simp [callT, h, sleepCount_append, sleepCount]

theorem noSleep_device_write (beh : Behavior) (cmd : String) :
    NoSleep (device_write beh cmd) :=
  noSleep_bind (noSleep_callT beh _) fun _ => noSleep_pure _

theorem noSleep_pyFloatM (r : String) : NoSleep (pyFloatM r) := by
  intro s
  cases h : pyFloat? r <;> simp [pyFloatM, h]

theorem noSleep_pyFloatOfOpt (x : Option Rat) : NoSleep (pyFloatOfOpt x) := by
  intro s
  cases x <;> simp [pyFloatOfOpt]

theorem noSleep_tryFloat (beh : Behavior) (cmd : String) :
    NoSleep (M.tryCatch
      (M.bind (device_query beh cmd) fun resp =>
       M.bind (pyFloatM resp) fun v =>
       M.pure (some v))
      (M.pure none)) :=
  noSleep_tryCatch
    (noSleep_bind (noSleep_callT beh _) fun resp =>
      noSleep_bind (noSleep_pyFloatM resp) fun _ => noSleep_pure _)
    (noSleep_pure _)

theorem noSleep_wfmpre_ymult (beh : Behavior) : NoSleep (wfmpre_ymult beh) :=
  noSleep_tryCatch
    (noSleep_bind (noSleep_device_write beh _) fun _ =>
      noSleep_bind (noSleep_callT beh _) fun resp =>
        noSleep_bind (noSleep_pyFloatM resp) fun _ => noSleep_pure _)
    (noSleep_pure _)

theorem noSleep_acq_attempt (beh : Behavior) (chan width enc : String) :
    NoSleep (acq_attempt beh chan width enc) :=
  noSleep_bind (noSleep_device_write beh _) fun _ =>
  noSleep_bind (noSleep_device_write beh _) fun _ =>
  noSleep_bind (noSleep_device_write beh _) fun _ =>
  noSleep_bind (noSleep_wfmpre_ymult beh) fun ym =>
  noSleep_bind (noSleep_pyFloatOfOpt ym) fun _ =>
  noSleep_bind (noSleep_tryFloat beh _) fun _ =>
  noSleep_bind (noSleep_tryFloat beh _) fun _ =>
  noSleep_bind (noSleep_tryFloat beh _) fun _ =>
  noSleep_bind (noSleep_device_write beh _) fun _ =>
  noSleep_bind (noSleep_callT beh _) fun _ =>
  noSleep_pure _

theorem noSleep_acquire_waveform (beh : Behavior) (chan width enc : String) :
    ∀ fuel : Nat, NoSleep (acquire_waveform beh chan width enc fuel) := by
  intro fuel
  induction fuel with
  | zero => exact noSleep_pure _
  | succ n ih =>
    intro s
    have ha : sleepCount (acq_attempt beh chan width enc s).1.trace = sleepCount s.trace :=
      noSleep_acq_attempt beh chan width enc s
    cases hxs : acq_attempt beh chan width enc s with
    | mk s1 r =>
      rw [hxs] at ha
      cases r with
      | error e0 =>
        simp [acquire_waveform, hxs]
        rw [ih s1]
        simpa using ha
      | ok r0 =>
        simp [acquire_waveform, hxs]
        simpa using ha


/-! ## The claims -/


/-- C1 counterexample: on a transport that raises exactly on the 6th call —
the `WFMPRE:YZERO?` (read zero) step — `acquire_waveform` does NOT abort:
the very same attempt continues through the offset, increment, `CURVE?` and
raw-read steps and returns successfully with `yzero = None`. -/
theorem C1_counterexample :
    acquire_waveform (behFailAt 5) "1" "1" "RPB" 1 st0
      = (⟨10, attemptEvs "1" "1" "RPB"⟩, .ok (some ⟨1, none, some 1, some 1, "DATA"⟩)) := by
  decide

/-- C1 amended: of the ten transport calls of one attempt, a raise at the
zero/offset/increment reads (calls 5, 6, 7) is swallowed and the attempt
still succeeds; a raise at any other call aborts the attempt, and the loop
then restarts from the select-data-source step. -/
theorem C1_theorem : ∀ k, k < 10 →
    (((acq_attempt (behFailAt k) "1" "1" "RPB" st0).2.toBool = true)
      ↔ (k = 5 ∨ k = 6 ∨ k = 7))
    ∧ (¬(k = 5 ∨ k = 6 ∨ k = 7) →
        (acquire_waveform (behFailAt k) "1" "1" "RPB" 2 st0).1.trace
            = (attemptEvs "1" "1" "RPB").take (k + 1) ++ attemptEvs "1" "1" "RPB"
          ∧ ((acquire_waveform (behFailAt k) "1" "1" "RPB" 2 st0).2).toBool = true) := by
  decide

/-- C1 witness: instance of the amended theorem at `k = 0`. -/
theorem C1_witness :
    (((acq_attempt (behFailAt 0) "1" "1" "RPB" st0).2.toBool = true)
      ↔ ((0:Nat) = 5 ∨ (0:Nat) = 6 ∨ (0:Nat) = 7))
    ∧ (¬((0:Nat) = 5 ∨ (0:Nat) = 6 ∨ (0:Nat) = 7) →
        (acquire_waveform (behFailAt 0) "1" "1" "RPB" 2 st0).1.trace
            = (attemptEvs "1" "1" "RPB").take (0 + 1) ++ attemptEvs "1" "1" "RPB"
          ∧ ((acquire_waveform (behFailAt 0) "1" "1" "RPB" 2 st0).2).toBool = true) :=
  C1_theorem 0 (by decide)

/-- C2 counterexample: on an all-successful transport, a successful
`acquire_waveform("1","1","RPB")` issues NINE commands before the raw read —
the `*WAI` written inside `wfmpre_ymult` sits between `DATA:ENC` and
`WFMPRE:YMULT?` — not the claimed eight. -/
theorem C2_counterexample :
    (acquire_waveform behGood "1" "1" "RPB" 1 st0).2
        = .ok (some ⟨1, some 1, some 1, some 1, "DATA"⟩)
    ∧ opsOf (acquire_waveform behGood "1" "1" "RPB" 1 st0).1.trace
        = [.write "DATA:SOU CH1", .write "DATA:WIDTH 1", .write "DATA:ENC RPB",
           .write "*WAI", .query "WFMPRE:YMULT?", .query "WFMPRE:YZERO?",
           .query "WFMPRE:YOFF?", .query "WFMPRE:XINCR?", .write "CURVE?", .readRaw]
    ∧ opsOf (acquire_waveform behGood "1" "1" "RPB" 1 st0).1.trace
        ≠ claimedCmdSeq "1" "1" "RPB" ++ [TOp.readRaw] := by
  decide

/-- C2 amended: for every channel, width and encoding, a first-attempt
successful `acquire_waveform` issues exactly `DATA:SOU CH{chan}`,
`DATA:WIDTH {width}`, `DATA:ENC {enc}`, `*WAI`, `WFMPRE:YMULT?`,
`WFMPRE:YZERO?`, `WFMPRE:YOFF?`, `WFMPRE:XINCR?`, `CURVE?` and then the raw
block read, with nothing else interleaved. -/
theorem C2_theorem (beh : Behavior) (chan width enc : String)
    (r0 r1 r2 r3 q4 q5 q6 q7 r8 d : String) (v4 : Rat)
    (h0 : beh 0 (.write ("DATA:SOU CH" ++ chan)) = .ret r0)
    (h1 : beh 1 (.write ("DATA:WIDTH " ++ width)) = .ret r1)
    (h2 : beh 2 (.write ("DATA:ENC " ++ enc)) = .ret r2)
    (h3 : beh 3 (.write "*WAI") = .ret r3)
    (h4 : beh 4 (.query "WFMPRE:YMULT?") = .ret q4)
    (p4 : pyFloat? q4 = some v4)
    (h5 : beh 5 (.query "WFMPRE:YZERO?") = .ret q5)
    (h6 : beh 6 (.query "WFMPRE:YOFF?") = .ret q6)
    (h7 : beh 7 (.query "WFMPRE:XINCR?") = .ret q7)
    (h8 : beh 8 (.write "CURVE?") = .ret r8)
    (h9 : beh 9 .readRaw = .ret d) :
    acquire_waveform beh chan width enc 1 st0
      = (⟨10, attemptEvs chan width enc⟩,
         .ok (some ⟨v4, pyFloat? q5, pyFloat? q6, pyFloat? q7, d⟩)) := by
  have heq := acq_attempt_success beh chan width enc st0 r0 r1 r2 r3 q4 q5 q6 q7 r8 d v4
    h0 h1 h2 h3 h4 p4 h5 h6 h7 h8 h9
  simp only [acquire_waveform, heq]
  simp [st0]

/-- C2 witness: the amended sequence on the all-successful transport. -/
theorem C2_witness :
    acquire_waveform behGood "1" "1" "RPB" 1 st0
      = (⟨10, attemptEvs "1" "1" "RPB"⟩,
         .ok (some ⟨1, pyFloat? "1.0", pyFloat? "1.0", pyFloat? "1.0", "DATA"⟩)) :=
  C2_theorem behGood "1" "1" "RPB" "" "" "" "" "1.0" "1.0" "1.0" "1.0" "" "DATA" 1
    rfl rfl rfl rfl rfl (by decide) rfl rfl rfl rfl rfl

/-- C3 counterexample: when the first `*OPC?` answers `"0"` (falsy) and the
second `"1"`, the two consecutive `*OPC?` queries are adjacent in the trace —
no sleep separates them (the sleep sits only on the exception path). -/
theorem C3_counterexample :
    wait_until_ready behZeroOne 2 st0
      = (⟨2, [Ev.op (.query "*OPC?"), Ev.op (.query "*OPC?")]⟩, .ok (some ())) := by
  decide

/-- C3 amended: one poll iteration sleeps 0.1 s exactly when the `*OPC?`
query raises or its response fails to parse as an integer; a response that
parses to an integer — `0` included — produces no sleep, and the loop breaks
iff that integer is nonzero. -/
theorem C3_theorem : ∀ (beh : Behavior) (s : TState),
    wur_iter beh s =
      (match beh s.idx (.query "*OPC?") with
       | .raise =>
         (⟨s.idx + 1, s.trace ++ [Ev.op (.query "*OPC?"), Ev.sleep (1 / 10)]⟩, .ok false)
       | .ret r =>
         match pyInt r with
         | none =>
           (⟨s.idx + 1, s.trace ++ [Ev.op (.query "*OPC?"), Ev.sleep (1 / 10)]⟩, .ok false)
         | some v =>
           (⟨s.idx + 1, s.trace ++ [Ev.op (.query "*OPC?")]⟩, .ok (decide (v ≠ 0)))) := by
  intro beh s
  cases h : beh s.idx (.query "*OPC?") with
  | raise => simp [wur_iter, M.tryCatch, M.bind, M.pure, device_query, callT, sleepM, h]
  | ret r =>
    cases hp : pyInt r <;>
      simp [wur_iter, M.tryCatch, M.bind, M.pure, device_query, callT, sleepM, pyIntM, h, hp]

/-- C4: if the first `*OPC?` query answers a string parsing to a nonzero
integer, `wait_until_ready` returns right after that single query: the trace
is one query event, no sleep, no further transport call. -/
theorem C4_theorem (beh : Behavior) (r : String) (v : Int) (fuel : Nat)
    (h : beh 0 (.query "*OPC?") = .ret r) (hp : pyInt r = some v) (hv : v ≠ 0) :
    wait_until_ready beh (fuel + 1) st0
      = (⟨1, [Ev.op (.query "*OPC?")]⟩, .ok (some ())) := by
  simp [wait_until_ready, wur_iter, M.tryCatch, M.bind, M.pure, device_query, callT,
    pyIntM, st0, h, hp, hv]

/-- C4 witness: a transport answering `"1"`. -/
theorem C4_witness :
    wait_until_ready (fun _ _ => Outcome.ret "1") 3 st0
      = (⟨1, [Ev.op (.query "*OPC?")]⟩, .ok (some ())) :=
  C4_theorem (fun _ _ => Outcome.ret "1") "1" 1 2 rfl (by decide) (by decide)

/-- C5: with every `*OPC?` poll failing or answering falsy,
`wait_until_ready` is still looping after every number of iterations, and
with every acquisition attempt raising, `acquire_waveform` is still looping
after every number of attempts: neither loop has a retry bound. -/
theorem C5_theorem (beh1 beh2 : Behavior) (chan width enc : String)
    (h1 : ∀ i, opcFailsOrFalsy (beh1 i (.query "*OPC?")))
    (h2 : ∀ s, ∃ s1, acq_attempt beh2 chan width enc s = (s1, .error ())) :
    (∀ (fuel : Nat) (s : TState), (wait_until_ready beh1 fuel s).2 = .ok none)
    ∧ (∀ (fuel : Nat) (s : TState),
        (acquire_waveform beh2 chan width enc fuel s).2 = .ok none) :=
  ⟨wur_never beh1 h1, acq_never beh2 chan width enc h2⟩

/-- C5 witness: the all-raising transport. -/
theorem C5_witness :
    ((wait_until_ready behRaise 5 st0).2 = .ok none)
    ∧ ((acquire_waveform behRaise "1" "1" "RPB" 5 st0).2 = .ok none) :=
  have h := C5_theorem behRaise behRaise "1" "1" "RPB"
    (fun _ => Or.inl rfl) (fun _ => ⟨_, rfl⟩)
  ⟨h.1 5 st0, h.2 5 st0⟩

/-- C6: on a transport raising exactly at the raw block read of the first
two attempts (all other calls succeeding, preamble answers numeric),
`acquire_waveform` runs exactly three full attempts — the trace is three
copies of the per-attempt command sequence, each starting from
`DATA:SOU` — and returns the values of the third attempt successfully. -/
theorem C6_theorem (qs : Nat → String) (d chan width enc : String) (y1 y2 y3 : Rat)
    (g1 : pyFloat? (qs 4) = some y1) (g2 : pyFloat? (qs 14) = some y2)
    (g3 : pyFloat? (qs 24) = some y3) :
    acquire_waveform (behC6 qs d) chan width enc 3 st0
      = (⟨30, attemptEvs chan width enc ++ attemptEvs chan width enc
              ++ attemptEvs chan width enc⟩,
         .ok (some ⟨y3, pyFloat? (qs 25), pyFloat? (qs 26), pyFloat? (qs 27), d⟩)) := by
  have a1 := acq_attempt_failRaw (behC6 qs d) chan width enc st0
    "" "" "" "" (qs 4) (qs 5) (qs 6) (qs 7) "" y1
    rfl rfl rfl rfl rfl g1 rfl rfl rfl rfl rfl
  have a2 := acq_attempt_failRaw (behC6 qs d) chan width enc ⟨10, attemptEvs chan width enc⟩
    "" "" "" "" (qs 14) (qs 15) (qs 16) (qs 17) "" y2
    rfl rfl rfl rfl rfl g2 rfl rfl rfl rfl rfl
  have a3 := acq_attempt_success (behC6 qs d) chan width enc
    ⟨20, attemptEvs chan width enc ++ attemptEvs chan width enc⟩
    "" "" "" "" (qs 24) (qs 25) (qs 26) (qs 27) "" d y3
    rfl rfl rfl rfl rfl g3 rfl rfl rfl rfl rfl
  have e1 := acquire_waveform_step_error (behC6 qs d) chan width enc 2 st0 _ a1
  have e2 := acquire_waveform_step_error (behC6 qs d) chan width enc 1
    ⟨10, attemptEvs chan width enc⟩ _ a2
  have e3 := acquire_waveform_step_ok (behC6 qs d) chan width enc 0
    ⟨20, attemptEvs chan width enc ++ attemptEvs chan width enc⟩ _ _ a3
  exact e1.trans (e2.trans e3)

/-- C6 witness: the concrete mock (`"1.0"` preamble answers, `"DATA"`
block). -/
theorem C6_witness :
    acquire_waveform (behC6 (fun _ => "1.0") "DATA") "1" "1" "RPB" 3 st0
      = (⟨30, attemptEvs "1" "1" "RPB" ++ attemptEvs "1" "1" "RPB"
              ++ attemptEvs "1" "1" "RPB"⟩,
         .ok (some ⟨1, pyFloat? "1.0", pyFloat? "1.0", pyFloat? "1.0", "DATA"⟩)) :=
  C6_theorem (fun _ => "1.0") "DATA" "1" "1" "RPB" 1 1 1
    (by decide) (by decide) (by decide)

/-- C7 counterexample: the transport raises at the raw read of the first
attempt and succeeds throughout the second; the two consecutive attempts of
`acquire_waveform` are back-to-back in the trace with zero sleeps — the
acquisition retry loop has no sleep between attempts. -/
theorem C7_counterexample :
    (acquire_waveform (behFailAt 9) "1" "1" "RPB" 2 st0).1.trace
        = attemptEvs "1" "1" "RPB" ++ attemptEvs "1" "1" "RPB"
    ∧ sleepCount (acquire_waveform (behFailAt 9) "1" "1" "RPB" 2 st0).1.trace = 0
    ∧ (acquire_waveform (behFailAt 9) "1" "1" "RPB" 2 st0).2
        = .ok (some ⟨1, some 1, some 1, some 1, "DATA"⟩) := by
  decide

/-- C7 amended: only the readiness-polling loop ever sleeps.
`acquire_waveform` adds no sleep whatsoever (for any transport, fuel and
start state), and one `wait_until_ready` iteration sleeps exactly when its
`*OPC?` query raises or fails to parse — never between attempts whose
response parsed (truthy or falsy). -/
theorem C7_theorem :
    (∀ (beh : Behavior) (chan width enc : String) (fuel : Nat) (s : TState),
      sleepCount (acquire_waveform beh chan width enc fuel s).1.trace
        = sleepCount s.trace)
    ∧ (∀ (beh : Behavior) (s : TState),
      sleepCount (wur_iter beh s).1.trace
        = sleepCount s.trace + wurSleepNum (beh s.idx (.query "*OPC?"))) := by
  constructor
  · exact fun beh chan width enc fuel s => noSleep_acquire_waveform beh chan width enc fuel s
  · intro beh s
    rw [wur_iter_eq]
    cases h : beh s.idx (.query "*OPC?") with
    | raise => simp [wurSleepNum, sleepCount_append, sleepCount]
    | ret r =>
      cases hp : pyInt r <;> simp [wurSleepNum, hp, sleepCount_append, sleepCount]

/-- C8: none of the four waveform-preamble query methods can propagate an
exception: each always returns (`.ok`), with value the response parsed as a
float when the transport call chain succeeded and the response was numeric,
and `None` otherwise (raise or parse failure) — the cause is discarded. -/
theorem C8_theorem : ∀ (beh : Behavior) (s : TState),
    wfmpre_ymult beh s =
      (match beh s.idx (.write "*WAI") with
       | .raise => (⟨s.idx + 1, s.trace ++ [Ev.op (.write "*WAI")]⟩, .ok none)
       | .ret _ =>
         (⟨s.idx + 2, s.trace ++ [Ev.op (.write "*WAI"), Ev.op (.query "WFMPRE:YMULT?")]⟩,
          .ok (match beh (s.idx + 1) (.query "WFMPRE:YMULT?") with
               | .raise => none
               | .ret r => pyFloat? r)))
    ∧ wfmpre_yzero beh s =
      (⟨s.idx + 1, s.trace ++ [Ev.op (.query "WFMPRE:YZERO?")]⟩,
       .ok (match beh s.idx (.query "WFMPRE:YZERO?") with
            | .raise => none
            | .ret r => pyFloat? r))
    ∧ wfmpre_yoff beh s =
      (⟨s.idx + 1, s.trace ++ [Ev.op (.query "WFMPRE:YOFF?")]⟩,
       .ok (match beh s.idx (.query "WFMPRE:YOFF?") with
            | .raise => none
            | .ret r => pyFloat? r))
    ∧ wfmpre_xincr beh s =
      (⟨s.idx + 1, s.trace ++ [Ev.op (.query "WFMPRE:XINCR?")]⟩,
       .ok (match beh s.idx (.query "WFMPRE:XINCR?") with
            | .raise => none
            | .ret r => pyFloat? r)) :=
  fun beh s =>
    ⟨wfmpre_ymult_eq beh s, wfmpre_yzero_eq beh s, wfmpre_yoff_eq beh s,
     wfmpre_xincr_eq beh s⟩


/-- C9: `connect_usb_instrument` and `connect_ethernet_instrument` return
`(device, resource string, "Connected")` with a non-`None` device exactly
when `open_resource` yields a handle, return exactly
`(None, None, "Not Connected")` when it raises `VisaIOError`, and no
returned triple ever carries any other status. -/
theorem C9_theorem (openR : OpenResource) (address ip : String)
    (port : Nat) (sock : Bool) :
    (∀ d, openR address = .ok d →
      connect_usb_instrument openR address = .ok (some d, some address, "Connected"))
    ∧ (openR address = .visaIOError →
      connect_usb_instrument openR address = .ok (none, none, "Not Connected"))
    ∧ (∀ t, connect_usb_instrument openR address = .ok t →
        (t.2.2 = "Connected" ∧ t.1.isSome = true) ∨ t = (none, none, "Not Connected"))
    ∧ (∀ d, openR (ethernet_resource_str ip port sock) = .ok d →
      connect_ethernet_instrument openR ip port sock
        = .ok (some d, some (ethernet_resource_str ip port sock), "Connected"))
    ∧ (openR (ethernet_resource_str ip port sock) = .visaIOError →
      connect_ethernet_instrument openR ip port sock = .ok (none, none, "Not Connected"))
    ∧ (∀ t, connect_ethernet_instrument openR ip port sock = .ok t →
        (t.2.2 = "Connected" ∧ t.1.isSome = true) ∨ t = (none, none, "Not Connected")) := by
  refine ⟨?_, ?_, ?_, ?_, ?_, ?_⟩
  · intro d h; simp [connect_usb_instrument, h]
  · intro h; simp [connect_usb_instrument, h]
  · intro t ht
    cases h : openR address with
    | ok d =>
      simp [connect_usb_instrument, h] at ht
      subst ht; left; simp
    | visaIOError =>
      simp [connect_usb_instrument, h] at ht
      subst ht; right; rfl
    | otherError => simp [connect_usb_instrument, h] at ht
  · intro d h; simp [connect_ethernet_instrument, h]
  · intro h; simp [connect_ethernet_instrument, h]
  · intro t ht
    cases h : openR (ethernet_resource_str ip port sock) with
    | ok d =>
      simp [connect_ethernet_instrument, h] at ht
      subst ht; left; simp
    | visaIOError =>
      simp [connect_ethernet_instrument, h] at ht
      subst ht; right; rfl
    | otherError => simp [connect_ethernet_instrument, h] at ht

/-- C9 witness: a succeeding USB open and a `VisaIOError` Ethernet open. -/
theorem C9_witness :
    connect_usb_instrument (fun _ => .ok ⟨0⟩) "USB0::ADDR"
        = .ok (some ⟨0⟩, some "USB0::ADDR", "Connected")
    ∧ connect_ethernet_instrument (fun _ => .visaIOError) "10.0.0.1" 5025 false
        = .ok (none, none, "Not Connected") :=
  ⟨(C9_theorem (fun _ => .ok ⟨0⟩) "USB0::ADDR" "10.0.0.1" 5025 false).1 ⟨0⟩ rfl,
   (C9_theorem (fun _ => .visaIOError) "USB0::ADDR" "10.0.0.1" 5025 false).2.2.2.2.1 rfl⟩

/-- C10: `DPO4000.__init__` raises (no instance reaches the caller) whenever
the connection attempt yields no handle or the connection method is neither
`"USB"` nor `"IP"`; every successfully constructed instance has status
`"Connected"` and a non-`None` device. -/
theorem C10_theorem (openR : OpenResource) (cm addr : String) :
    (cm ≠ "USB" → cm ≠ "IP" → DPO4000_init openR cm addr = .error ())
    ∧ (cm = "USB" → (openR addr).isOk = false →
        DPO4000_init openR cm addr = .error ())
    ∧ (cm = "IP" → (openR (ethernet_resource_str addr 5025 false)).isOk = false →
        DPO4000_init openR cm addr = .error ())
    ∧ (∀ inst, DPO4000_init openR cm addr = .ok inst →
        inst.status = "Connected" ∧ inst.device.isSome = true) := by
  refine ⟨?_, ?_, ?_, ?_⟩
  · intro h1 h2; simp [DPO4000_init, h1, h2]
  · intro h1 h2
    subst h1
    cases h : openR addr <;>
      simp [DPO4000_init, connect_usb_instrument, h, OpenOutcome.isOk] at h2 ⊢
  · intro h1 h2
    subst h1
    cases h : openR (ethernet_resource_str addr 5025 false) <;>
      simp [DPO4000_init, connect_ethernet_instrument, h, OpenOutcome.isOk] at h2 ⊢
  · intro inst hin
    by_cases h1 : cm = "USB"
    · subst h1
      cases h : openR addr with
      | ok d =>
        simp [DPO4000_init, connect_usb_instrument, h] at hin
        simp [← hin]
      | visaIOError => simp [DPO4000_init, connect_usb_instrument, h] at hin
      | otherError => simp [DPO4000_init, connect_usb_instrument, h] at hin
    · by_cases h2 : cm = "IP"
      · subst h2
        cases h : openR (ethernet_resource_str addr 5025 false) with
        | ok d =>
          simp [DPO4000_init, connect_ethernet_instrument, h1, h] at hin
          simp [← hin]
        | visaIOError =>
          simp [DPO4000_init, connect_ethernet_instrument, h1, h] at hin
        | otherError =>
          simp [DPO4000_init, connect_ethernet_instrument, h1, h] at hin
      · simp [DPO4000_init, h1, h2] at hin

/-- C10 witness: a failed USB open and an invalid method both raise; a
succeeding USB open constructs an instance with status `"Connected"` and a
device. -/
theorem C10_witness :
    DPO4000_init (fun _ => .visaIOError) "USB" "addr" = .error ()
    ∧ DPO4000_init (fun _ => .ok ⟨0⟩) "GPIB" "addr" = .error ()
    ∧ ((⟨some ⟨0⟩, some "addr", "Connected", some "USB", 20000⟩ : DPOFields).status
          = "Connected"
       ∧ (⟨some ⟨0⟩, some "addr", "Connected", some "USB", 20000⟩ : DPOFields).device.isSome
          = true) :=
  ⟨(C10_theorem (fun _ => .visaIOError) "USB" "addr").2.1 rfl rfl,
   (C10_theorem (fun _ => .ok ⟨0⟩) "GPIB" "addr").1 (by decide) (by decide),
   (C10_theorem (fun _ => .ok ⟨0⟩) "USB" "addr").2.2.2 _ rfl⟩


end PyDriver
